import Mathlib

/-!
Shallow embedding of the GitHub issue-management sync client
(src/github_issue_management/tools/github_tools.py).

The remote tracker is modelled as an explicit `Repo` state: its open issues
(as returned by the tracker, sorted by creation time descending), its label
catalog, and the set of users that may be assigned (the remote rejects an
assignment batch containing any other user with a 422, per the spec's
error surface). Each tool `_run` method becomes a pure function from the
credential, the repo state and the tool arguments to an outcome value, the
updated repo state, and the list of remote API calls performed. A separate
render function reproduces the exact result string each outcome is turned
into by the Python code.
-/

/-- An issue record as read from the remote tracker. `created_at` is the
creation timestamp (modelled as an integer time so that the strict `<`
comparison of the source is kept); `created_at_iso` is its ISO rendering
used only in output. `pull_request` is the truthiness of the tracker's
pull-request marker on the entity. -/
structure Issue where
  number : Nat
  title : String
  body : Option String
  labels : List String
  assignees : List String
  created_at : Int
  created_at_iso : String
  html_url : String
  state : String
  pull_request : Bool
deriving Repr, DecidableEq

/-- The remote repository state visible to the four operations. -/
structure Repo where
  issues : List Issue
  labelCatalog : List String
  assignableUsers : List String
deriving Repr, DecidableEq

/-- One remote API request, recorded in the order the code performs them. -/
inductive RemoteCall where
  | getRepo
  | getIssues
  | getIssue (n : Nat)
  | getLabels
  | addLabels (ls : List String)
  | addAssignees (us : List String)
  | createComment (body : String)
deriving Repr, DecidableEq

/-- Truthiness of `os.getenv("GITHUB_TOKEN")` as tested by
`if not github_token`: an absent or empty token fails the check. -/
def tokenPresent : Option String → Bool
  | none => false
  | some s => !s.isEmpty

/-- `repo.get_issue(issue_number)`: the issue with the given number,
if present. -/
def findIssue (repo : Repo) (n : Nat) : Option Issue :=
  repo.issues.find? (fun i => i.number == n)

/-- The label list of issue `n`, or `[]` when the issue does not exist. -/
def issueLabels (repo : Repo) (n : Nat) : List String :=
  ((findIssue repo n).map Issue.labels).getD []

/-- The assignee list of issue `n`, or `[]` when the issue does not exist. -/
def issueAssignees (repo : Repo) (n : Nat) : List String :=
  ((findIssue repo n).map Issue.assignees).getD []

/-- Remote effect of `issue.add_to_labels`: the issue's label list is
replaced by the given list (the caller passes the merged list). -/
def setIssueLabels (repo : Repo) (n : Nat) (newLabels : List String) : Repo :=
  { repo with issues :=
      repo.issues.map (fun i => if i.number == n then { i with labels := newLabels } else i) }

/-- Remote effect of `issue.add_to_assignees`. -/
def setIssueAssignees (repo : Repo) (n : Nat) (newAssignees : List String) : Repo :=
  { repo with issues :=
      repo.issues.map (fun i => if i.number == n then { i with assignees := newAssignees } else i) }

/-! ## GetNewIssues._run -/

/-- The per-issue `since` filter of `GetNewIssues._run`: when `since` is
non-empty the code replaces `"Z"` with `"+00:00"` and attempts an ISO-8601
parse (`parseIso` stands for `datetime.fromisoformat`, an external library
routine, so it is a parameter); on success an issue created strictly
before the parsed instant is skipped, on failure the filter is silently
ignored. -/
def sinceKeep (parseIso : String → Option Int) (since : String) (createdAt : Int) : Bool :=
  if since.isEmpty then true
  else
    match parseIso (since.replace "Z" "+00:00") with
    | some sinceDt => if createdAt < sinceDt then false else true
    | none => true

/-- The issue-selection loop of `GetNewIssues._run`: of the issues the
tracker returned (open, sorted by creation descending), only the first 20
are considered; pull requests are skipped; then the `since` filter is
applied. -/
def selectIssues (parseIso : String → Option Int) (issues : List Issue) (since : String) :
    List Issue :=
  (issues.take 20).filter (fun i => !i.pull_request && sinceKeep parseIso since i.created_at)

/-- The distinct return points of `GetNewIssues._run`. -/
inductive FetchOutcome where
  | credMissing
  | noIssues
  | listing (issues : List Issue)
  | apiError (msg : String)
  | exnError (msg : String)
deriving Repr, DecidableEq

/-- `GetNewIssues._run` on the deterministic paths (the two exception
returns `apiError`/`exnError` are reachable only through remote faults,
which the state model does not raise). -/
def getNewIssuesRun (parseIso : String → Option Int) (tok : Option String) (repo : Repo)
    (since : String) : FetchOutcome × List RemoteCall :=
  if !tokenPresent tok then (.credMissing, [])
  else
    let sel := selectIssues parseIso repo.issues since
    if sel.isEmpty then (.noIssues, [.getRepo, .getIssues])
    else (.listing sel, [.getRepo, .getIssues])

/-- Issues the summary line flags as needing processing: missing labels or
missing assignees. -/
def needsProcessing (issues : List Issue) : List Issue :=
  issues.filter (fun i => i.labels.isEmpty || i.assignees.isEmpty)

/-- The markdown block printed for one issue. -/
def renderIssueBlock (i : Issue) : String :=
  let body := i.body.getD ""
  "## Issue #" ++ toString i.number ++ ": " ++ i.title ++ "\n" ++
  "**Body:** " ++ String.mk (body.toList.take 300) ++
    (if body.length > 300 then "..." else "") ++ "\n" ++
  "**Labels:** " ++ (if i.labels.isEmpty then "❌ None" else String.intercalate ", " i.labels) ++
    "\n" ++
  "**Assignees:** " ++
    (if i.assignees.isEmpty then "❌ None" else String.intercalate ", " i.assignees) ++ "\n" ++
  "**Created:** " ++ i.created_at_iso ++ "\n" ++
  "**URL:** " ++ i.html_url

/-- The result string each `GetNewIssues._run` return point produces. -/
def renderFetchOutcome : FetchOutcome → String
  | .credMissing => "Error: GITHUB_TOKEN environment variable is not set."
  | .noIssues => "No new issues found."
  | .listing issues =>
      "Found " ++ toString issues.length ++ " open issues.\n" ++
      (if (needsProcessing issues).isEmpty then "" else
        "⚠️ " ++ toString (needsProcessing issues).length ++
          " issues need processing (missing labels or assignees).\n\n") ++
      String.intercalate "\n\n" (issues.map renderIssueBlock)
  | .apiError m => "GitHub API Error: " ++ m
  | .exnError m => "Error fetching issues: " ++ m

/-- Which `GetNewIssues._run` return points are failure outcomes. -/
def fetchIsFailure : FetchOutcome → Bool
  | .credMissing => true
  | .apiError _ => true
  | .exnError _ => true
  | .noIssues => false
  | .listing _ => false

/-! ## AddLabelToIssue._run -/

/-- The distinct return points of `AddLabelToIssue._run`. -/
inductive LabelOutcome where
  | credMissing
  | invalidLabels (invalid : List String) (catalog : List String)
  | added (toAdd updated : List String) (issueNumber : Nat)
  | allPresent (existing : List String) (issueNumber : Nat)
  | notFound (issueNumber : Nat) (repository : String)
  | badLabels422
  | apiError (msg : String)
  | exnError (msg : String)
deriving Repr, DecidableEq

/-- `AddLabelToIssue._run`: keeps only requested labels not already on the
issue; a non-empty remainder is validated against the repository's label
catalog and either rejected atomically or appended to the issue's labels. -/
def addLabelRun (tok : Option String) (repo : Repo) (repository : String) (issueNumber : Nat)
    (labels : List String) : LabelOutcome × Repo × List RemoteCall :=
  if !tokenPresent tok then (.credMissing, repo, [])
  else
    match findIssue repo issueNumber with
    | none => (.notFound issueNumber repository, repo, [.getRepo, .getIssue issueNumber])
    | some issue =>
      let existingLabels := issue.labels
      let labelsToAdd := labels.filter (fun l => !existingLabels.contains l)
      if !labelsToAdd.isEmpty then
        let repoLabels := repo.labelCatalog
        let invalidLabels := labelsToAdd.filter (fun l => !repoLabels.contains l)
        if !invalidLabels.isEmpty then
          (.invalidLabels invalidLabels repoLabels, repo,
            [.getRepo, .getIssue issueNumber, .getLabels])
        else
          let updatedLabels := existingLabels ++ labelsToAdd
          (.added labelsToAdd updatedLabels issueNumber,
            setIssueLabels repo issueNumber updatedLabels,
            [.getRepo, .getIssue issueNumber, .getLabels, .addLabels labelsToAdd])
      else
        (.allPresent existingLabels issueNumber, repo, [.getRepo, .getIssue issueNumber])

/-- The result string each `AddLabelToIssue._run` return point produces. -/
def renderLabelOutcome : LabelOutcome → String
  | .credMissing => "Error: GITHUB_TOKEN environment variable is not set."
  | .invalidLabels invalid catalog =>
      "Error: Labels " ++ toString invalid ++
        " do not exist in the repository. Available labels: " ++
        toString (catalog.take 10) ++ "..."
  | .added toAdd updated n =>
      "✅ Successfully added labels " ++ toString toAdd ++ " to issue #" ++ toString n ++
        ".\nCurrent labels: " ++ toString updated
  | .allPresent existing n =>
      "ℹ️ All labels already exist on issue #" ++ toString n ++ ".\nCurrent labels: " ++
        toString existing
  | .notFound n repository =>
      "Error: Issue #" ++ toString n ++ " not found in repository " ++ repository ++ "."
  | .badLabels422 =>
      "Error: Invalid label name(s). Please check that labels exist in the repository."
  | .apiError m => "GitHub API Error: " ++ m
  | .exnError m => "Error adding labels: " ++ m

/-- Which `AddLabelToIssue._run` return points are failure outcomes. -/
def labelIsFailure : LabelOutcome → Bool
  | .credMissing => true
  | .invalidLabels _ _ => true
  | .notFound _ _ => true
  | .badLabels422 => true
  | .apiError _ => true
  | .exnError _ => true
  | .added _ _ _ => false
  | .allPresent _ _ => false

/-! ## AssignIssue._run -/

/-- The distinct return points of `AssignIssue._run`. -/
inductive AssignOutcome where
  | credMissing
  | assigned (toAdd updated : List String) (issueNumber : Nat)
  | rejected (toAdd : List String)
  | allAssigned (existing : List String) (issueNumber : Nat)
  | notFound (issueNumber : Nat) (repository : String)
  | apiError (msg : String)
  | exnError (msg : String)
deriving Repr, DecidableEq

/-- `AssignIssue._run`: keeps only requested assignees not already on the
issue; a non-empty remainder is sent to the remote, which (per the spec's
error surface) rejects the whole batch with a 422 when any member is not
an assignable user, leaving the issue unchanged. -/
def assignIssueRun (tok : Option String) (repo : Repo) (repository : String) (issueNumber : Nat)
    (assignees : List String) : AssignOutcome × Repo × List RemoteCall :=
  if !tokenPresent tok then (.credMissing, repo, [])
  else
    match findIssue repo issueNumber with
    | none => (.notFound issueNumber repository, repo, [.getRepo, .getIssue issueNumber])
    | some issue =>
      let existingAssignees := issue.assignees
      let assigneesToAdd := assignees.filter (fun a => !existingAssignees.contains a)
      if !assigneesToAdd.isEmpty then
        if assigneesToAdd.all (fun a => repo.assignableUsers.contains a) then
          let updatedAssignees := existingAssignees ++ assigneesToAdd
          (.assigned assigneesToAdd updatedAssignees issueNumber,
            setIssueAssignees repo issueNumber updatedAssignees,
            [.getRepo, .getIssue issueNumber, .addAssignees assigneesToAdd])
        else
          (.rejected assigneesToAdd, repo,
            [.getRepo, .getIssue issueNumber, .addAssignees assigneesToAdd])
      else
        (.allAssigned existingAssignees issueNumber, repo, [.getRepo, .getIssue issueNumber])

/-- The result string each `AssignIssue._run` return point produces. -/
def renderAssignOutcome : AssignOutcome → String
  | .credMissing => "Error: GITHUB_TOKEN environment variable is not set."
  | .assigned toAdd updated n =>
      "✅ Successfully assigned " ++ toString toAdd ++ " to issue #" ++ toString n ++
        ".\nCurrent assignees: " ++ toString updated
  | .rejected toAdd =>
      "Error: One or more assignees (" ++ toString toAdd ++
        ") may not have access to the repository or do not exist."
  | .allAssigned existing n =>
      "ℹ️ All assignees already assigned to issue #" ++ toString n ++
        ".\nCurrent assignees: " ++ toString existing
  | .notFound n repository =>
      "Error: Issue #" ++ toString n ++ " not found in repository " ++ repository ++ "."
  | .apiError m => "GitHub API Error: " ++ m
  | .exnError m => "Error assigning issue: " ++ m

/-- Which `AssignIssue._run` return points are failure outcomes. -/
def assignIsFailure : AssignOutcome → Bool
  | .credMissing => true
  | .rejected _ => true
  | .notFound _ _ => true
  | .apiError _ => true
  | .exnError _ => true
  | .assigned _ _ _ => false
  | .allAssigned _ _ => false

/-- Success or no-op outcomes of `AssignIssue._run`. -/
def assignIsOk : AssignOutcome → Bool
  | .assigned _ _ _ => true
  | .allAssigned _ _ => true
  | _ => false

/-! ## CommentOnIssue._run -/

/-- Whitespace characters recognised by Python's `str.strip()` on ASCII
text (space, tab, newline, carriage return, vertical tab, form feed). -/
def pyIsSpace (c : Char) : Bool :=
  c == ' ' || c == '\t' || c == '\n' || c == '\r' || c == '\x0B' || c == '\x0C'

/-- Truthiness of `not comment or not comment.strip()`: the comment is
empty or consists only of whitespace. -/
def isBlankComment (s : String) : Bool :=
  s.toList.all pyIsSpace

/-- `comment[:100] + "..." if len(comment) > 100 else comment`. -/
def commentPreview (comment : String) : String :=
  if comment.length > 100 then String.mk (comment.toList.take 100) ++ "..." else comment

/-- The distinct return points of `CommentOnIssue._run`. -/
inductive CommentOutcome where
  | credMissing
  | emptyComment
  | commented (issueNumber : Nat) (preview : String)
  | notFound (issueNumber : Nat) (repository : String)
  | permissionDenied
  | apiError (msg : String)
  | exnError (msg : String)
deriving Repr, DecidableEq

/-- `CommentOnIssue._run`: credential check, then the empty-comment check,
then one comment-creation write. -/
def commentRun (tok : Option String) (repo : Repo) (repository : String) (issueNumber : Nat)
    (comment : String) : CommentOutcome × List RemoteCall :=
  if !tokenPresent tok then (.credMissing, [])
  else if isBlankComment comment then (.emptyComment, [])
  else
    match findIssue repo issueNumber with
    | none => (.notFound issueNumber repository, [.getRepo, .getIssue issueNumber])
    | some _ =>
      (.commented issueNumber (commentPreview comment),
        [.getRepo, .getIssue issueNumber, .createComment comment])

/-- The result string each `CommentOnIssue._run` return point produces. -/
def renderCommentOutcome : CommentOutcome → String
  | .credMissing => "Error: GITHUB_TOKEN environment variable is not set."
  | .emptyComment => "Error: Comment cannot be empty."
  | .commented n preview =>
      "✅ Successfully added comment to issue #" ++ toString n ++ ".\nComment preview: " ++
        preview
  | .notFound n repository =>
      "Error: Issue #" ++ toString n ++ " not found in repository " ++ repository ++ "."
  | .permissionDenied =>
      "Error: Permission denied. Check that GITHUB_TOKEN has write access to issues."
  | .apiError m => "GitHub API Error: " ++ m
  | .exnError m => "Error adding comment: " ++ m

/-- Which `CommentOnIssue._run` return points are failure outcomes. -/
def commentIsFailure : CommentOutcome → Bool
  | .credMissing => true
  | .emptyComment => true
  | .notFound _ _ => true
  | .permissionDenied => true
  | .apiError _ => true
  | .exnError _ => true
  | .commented _ _ => false

/-! ## String prefix helpers (for the outcome-string claims) -/

/-- Character-list version of the starts-with test. -/
def listStartsWith : List Char → List Char → Bool
  | [], _ => true
  | _ :: _, [] => false
  | a :: as, b :: bs => a == b && listStartsWith as bs

/-- `s` begins with the marker `p`. -/
def strStartsWith (p s : String) : Bool :=
  listStartsWith p.data s.data

/-! ## Helper lemmas -/

theorem listStartsWith_append (p a b : List Char) (h : listStartsWith p a = true) :
    listStartsWith p (a ++ b) = true := by
  induction p generalizing a with
  | nil => rfl
  | cons c cs ih =>
    cases a with
    | nil => simp [listStartsWith] at h
    | cons d ds =>
      simp only [List.cons_append, listStartsWith, Bool.and_eq_true] at h ⊢
      exact ⟨h.1, ih ds h.2⟩

theorem strStartsWith_append (p a b : String) (h : strStartsWith p a = true) :
    strStartsWith p (a ++ b) = true := by
  have hd : (a ++ b).data = a.data ++ b.data := rfl
  simp only [strStartsWith, hd]
  exact listStartsWith_append _ _ _ h

theorem strStartsWith_false_of_head (p s : String) (c d : Char) (cs ds : List Char)
    (hp : p.data = c :: cs) (hs : s.data = d :: ds) (hne : (c == d) = false) :
    strStartsWith p s = false := by
  simp only [strStartsWith, hp, hs, listStartsWith, hne, Bool.false_and]

theorem find?_map_update (l : List Issue) (n : Nat) (f : Issue → Issue)
    (hf : ∀ i, (f i).number = i.number) :
    (l.map (fun i => if i.number == n then f i else i)).find? (fun i => i.number == n)
      = (l.find? (fun i => i.number == n)).map f := by
  induction l with
  | nil => rfl
  | cons a t ih =>
    rw [List.map_cons]
    by_cases h : (a.number == n) = true
    · have hfa : ((f a).number == n) = true := by rw [hf]; exact h
      rw [if_pos h]
      simp only [List.find?, hfa, h, Option.map_some']
    · have hb : (a.number == n) = false := by
        cases hx : (a.number == n) with
        | true => exact absurd hx h
        | false => rfl
      rw [if_neg h]
      simp only [List.find?, hb]
      exact ih

theorem findIssue_setIssueLabels (repo : Repo) (n : Nat) (ls : List String) :
    findIssue (setIssueLabels repo n ls) n
      = (findIssue repo n).map (fun i => { i with labels := ls }) :=
  find?_map_update repo.issues n _ (fun _ => rfl)

theorem findIssue_setIssueAssignees (repo : Repo) (n : Nat) (us : List String) :
    findIssue (setIssueAssignees repo n us) n
      = (findIssue repo n).map (fun i => { i with assignees := us }) :=
  find?_map_update repo.issues n _ (fun _ => rfl)

/-! ## Concrete fixtures used by the witnesses and counterexamples -/

def issue1 : Issue :=
  { number := 1, title := "Crash on startup", body := some "It crashes right away",
    labels := ["bug"], assignees := ["alice"], created_at := 100,
    created_at_iso := "2024-01-01T00:00:00+00:00",
    html_url := "https://example.invalid/issues/1", state := "open", pull_request := false }

def issuePr : Issue :=
  { number := 2, title := "Fix the crash", body := none,
    labels := [], assignees := [], created_at := 50,
    created_at_iso := "2023-12-31T00:00:00+00:00",
    html_url := "https://example.invalid/pull/2", state := "open", pull_request := true }

def repo0 : Repo :=
  { issues := [issue1], labelCatalog := ["bug", "feature"],
    assignableUsers := ["alice", "bob"] }

def issues0 : List Issue := [issue1, issuePr]

def parse0 : String → Option Int := fun _ => none

def parse1 : String → Option Int := fun _ => some 60

def body250 : String := String.mk (List.replicate 250 'a')

set_option maxRecDepth 8000

/-! ## Claim theorems -/

/-- Claim C3: whenever the GITHUB_TOKEN credential is absent from the
process configuration (it fails the truthiness check), every one of the
four operations returns the credential-missing error result and performs
no remote call at all. -/
theorem C3_missing_credential (tok : Option String) (htok : tokenPresent tok = false)
    (parseIso : String → Option Int) (repo : Repo) (since repository : String) (n : Nat)
    (labels assignees : List String) (comment : String) :
    getNewIssuesRun parseIso tok repo since = (.credMissing, []) ∧
    addLabelRun tok repo repository n labels = (.credMissing, repo, []) ∧
    assignIssueRun tok repo repository n assignees = (.credMissing, repo, []) ∧
    commentRun tok repo repository n comment = (.credMissing, []) := by
  refine ⟨?_, ?_, ?_, ?_⟩ <;>
    simp [getNewIssuesRun, addLabelRun, assignIssueRun, commentRun, htok]

theorem C3_missing_credential_witness :
    getNewIssuesRun parse0 none repo0 "" = (.credMissing, []) ∧
    addLabelRun none repo0 "octocat/Hello-World" 1 ["bug"] = (.credMissing, repo0, []) ∧
    assignIssueRun none repo0 "octocat/Hello-World" 1 ["bob"] = (.credMissing, repo0, []) ∧
    commentRun none repo0 "octocat/Hello-World" 1 "Thanks!" = (.credMissing, []) :=
  C3_missing_credential none rfl parse0 repo0 "" "octocat/Hello-World" 1 ["bug"] ["bob"]
    "Thanks!"

/-- Claim C10: in `CommentOnIssue._run` the credential check precedes the
body validation, so with the token absent and a blank comment body the
result is the credential-missing error, not the empty-comment validation
error. -/
theorem C10_credential_before_validation (tok : Option String) (repo : Repo)
    (repository : String) (n : Nat) (comment : String)
    (htok : tokenPresent tok = false) (_hblank : isBlankComment comment = true) :
    commentRun tok repo repository n comment = (.credMissing, []) := by
  simp [commentRun, htok]

theorem C10_credential_before_validation_witness :
    commentRun none repo0 "octocat/Hello-World" 1 "  " = (.credMissing, []) :=
  C10_credential_before_validation none repo0 "octocat/Hello-World" 1 "  " rfl (by decide)

/-- Claim C4: with the credential present, a comment body that is empty or
consists only of whitespace makes `CommentOnIssue._run` return the
empty-comment validation error with no remote call performed (in
particular zero remote writes). -/
theorem C4_blank_comment_rejected (tok : Option String) (repo : Repo) (repository : String)
    (n : Nat) (comment : String) (htok : tokenPresent tok = true)
    (hblank : isBlankComment comment = true) :
    commentRun tok repo repository n comment = (.emptyComment, []) := by
  simp [commentRun, htok, hblank]

theorem C4_blank_comment_rejected_witness :
    commentRun (some "token") repo0 "octocat/Hello-World" 1 " \t\n" = (.emptyComment, []) :=
  C4_blank_comment_rejected (some "token") repo0 "octocat/Hello-World" 1 " \t\n" rfl
    (by decide)

/-- Claim C5: every successful `CommentOnIssue._run` result carries a
preview equal to the first 100 characters of the body followed by the
ellipsis marker when the body is longer than 100 characters (hence 103
characters in total, as for a 250-character body), and equal to the
unmodified body otherwise. -/
theorem C5_comment_preview_shape (tok : Option String) (repo : Repo) (repository : String)
    (n m : Nat) (comment preview : String)
    (hsucc : (commentRun tok repo repository n comment).1
      = CommentOutcome.commented m preview) :
    (comment.length > 100 →
      preview = String.mk (comment.toList.take 100) ++ "..." ∧ preview.length = 103) ∧
    (¬ comment.length > 100 → preview = comment) := by
  unfold commentRun at hsucc
  split at hsucc
  · simp at hsucc
  · split at hsucc
    · simp at hsucc
    · split at hsucc
      · simp at hsucc
      · simp only [] at hsucc
        have hp : preview = commentPreview comment := by
          injection hsucc with h1 h2
          exact h2.symm
        subst hp
        constructor
        · intro h100
          unfold commentPreview
          rw [if_pos h100]
          refine ⟨rfl, ?_⟩
          rw [String.length_append]
          have hlt : (String.mk (comment.toList.take 100)).length = 100 := by
            show (comment.toList.take 100).length = 100
            rw [List.length_take]
            exact Nat.min_eq_left (Nat.le_of_lt h100)
          rw [hlt]
          rfl
        · intro h100
          unfold commentPreview
          rw [if_neg h100]

theorem C5_comment_preview_shape_witness :
    commentPreview body250 = String.mk (body250.toList.take 100) ++ "..." ∧
      (commentPreview body250).length = 103 :=
  (C5_comment_preview_shape (some "token") repo0 "octocat/Hello-World" 1 1 body250
    (commentPreview body250) rfl).1 (by decide)

/-- Claim C6: the issue selection of `GetNewIssues._run` draws only from
the first 20 entries of the open-issue list the tracker returned (which is
sorted by creation time descending) and never includes an entity that is
also a pull request. -/
theorem C6_take20_excludes_prs (parseIso : String → Option Int) (issues : List Issue)
    (since : String) :
    List.Sublist (selectIssues parseIso issues since) (issues.take 20) ∧
    ∀ i ∈ selectIssues parseIso issues since, i.pull_request = false := by
  constructor
  · unfold selectIssues
    exact List.filter_sublist _
  · intro i hi
    unfold selectIssues at hi
    rw [List.mem_filter] at hi
    have hb := hi.2
    rw [Bool.and_eq_true] at hb
    have := hb.1
    rwa [Bool.not_eq_true'] at this

/-- Claim C7: when the `since` value fails ISO-8601 parsing the filter has
no effect — the selection is identical to the call with `since` omitted —
and when it parses, exactly the issues created strictly before the parsed
instant are excluded from that same selection. -/
theorem C7_since_filter_semantics (parseIso : String → Option Int) (issues : List Issue)
    (since : String) :
    (parseIso (since.replace "Z" "+00:00") = none →
      selectIssues parseIso issues since = selectIssues parseIso issues "") ∧
    (∀ t : Int, since.isEmpty = false → parseIso (since.replace "Z" "+00:00") = some t →
      ∀ i : Issue, i ∈ selectIssues parseIso issues since ↔
        i ∈ selectIssues parseIso issues "" ∧ ¬ i.created_at < t) := by
  constructor
  · intro hp
    unfold selectIssues
    apply List.filter_congr
    intro x _
    have h1 : sinceKeep parseIso since x.created_at = true := by
      unfold sinceKeep
      rw [hp]
      split <;> rfl
    have h2 : sinceKeep parseIso "" x.created_at = true := rfl
    rw [h1, h2]
  · intro t hne hp i
    have hk : ∀ c : Int, sinceKeep parseIso since c = (if c < t then false else true) := by
      intro c
      unfold sinceKeep
      rw [hne, hp]
      simp
    have hempty : ∀ c : Int, sinceKeep parseIso "" c = true := fun _ => rfl
    simp only [selectIssues, List.mem_filter, Bool.and_eq_true, Bool.not_eq_true', hk, hempty,
      and_true]
    by_cases hlt : i.created_at < t
    · simp [hlt]
    · simp [hlt, and_assoc]

theorem C7_since_filter_semantics_witness :
    selectIssues parse0 issues0 "not-a-date" = selectIssues parse0 issues0 "" ∧
    (issue1 ∈ selectIssues parse1 issues0 "2024-01-01" ↔
      issue1 ∈ selectIssues parse1 issues0 "" ∧ ¬ issue1.created_at < 60) :=
  ⟨(C7_since_filter_semantics parse0 issues0 "not-a-date").1 rfl,
    (C7_since_filter_semantics parse1 issues0 "2024-01-01").2 60 rfl rfl issue1⟩

/-- Claim C2: with the credential present and the issue found, if some
requested label outside the issue's existing labels is absent from the
repository's label catalog, then the issue is left unchanged, no
label-adding remote call is made, and the returned validation error names
exactly the invalid subset (the requested labels minus the existing ones
minus the catalog). -/
theorem C2_invalid_labels_atomic (tok : Option String) (repo : Repo) (repository : String)
    (n : Nat) (labels : List String) (issue : Issue)
    (htok : tokenPresent tok = true)
    (hfind : findIssue repo n = some issue)
    (hbad : ∃ l ∈ labels, l ∉ issue.labels ∧ l ∉ repo.labelCatalog) :
    (addLabelRun tok repo repository n labels).2.1 = repo ∧
    (∀ ls, RemoteCall.addLabels ls ∉ (addLabelRun tok repo repository n labels).2.2) ∧
    (addLabelRun tok repo repository n labels).1
      = LabelOutcome.invalidLabels
          ((labels.filter (fun l => !issue.labels.contains l)).filter
            (fun l => !repo.labelCatalog.contains l)) repo.labelCatalog ∧
    ((labels.filter (fun l => !issue.labels.contains l)).filter
        (fun l => !repo.labelCatalog.contains l)).toFinset
      = (labels.toFinset \ issue.labels.toFinset) \ repo.labelCatalog.toFinset := by
  obtain ⟨l, hlL, hlE, hlC⟩ := hbad
  have hex1 : ∃ x ∈ labels, x ∉ issue.labels := ⟨l, hlL, hlE⟩
  have hex2 : ∃ x ∈ labels, x ∉ repo.labelCatalog ∧ x ∉ issue.labels := ⟨l, hlL, hlC, hlE⟩
  refine ⟨?_, ?_, ?_, ?_⟩
  · simp [addLabelRun, htok, hfind, hex1, hex2]
  · intro ls
    simp [addLabelRun, htok, hfind, hex1, hex2]
  · simp [addLabelRun, htok, hfind, hex1, hex2]
  · ext a
    simp only [List.mem_toFinset, List.mem_filter, Finset.mem_sdiff, Bool.not_eq_true',
      List.mem_toFinset]
    constructor
    · intro h
      refine ⟨⟨h.1.1, ?_⟩, ?_⟩
      · intro hm
        have := h.1.2
        simp at this
        exact this hm
      · intro hm
        have := h.2
        simp at this
        exact this hm
    · intro h
      refine ⟨⟨h.1.1, ?_⟩, ?_⟩
      · simpa using h.1.2
      · simpa using h.2

theorem C2_invalid_labels_atomic_witness :
    (addLabelRun (some "token") repo0 "octocat/Hello-World" 1 ["bug", "ghost-label"]).2.1
      = repo0 ∧
    RemoteCall.addLabels ["ghost-label"]
      ∉ (addLabelRun (some "token") repo0 "octocat/Hello-World" 1 ["bug", "ghost-label"]).2.2 ∧
    (addLabelRun (some "token") repo0 "octocat/Hello-World" 1 ["bug", "ghost-label"]).1
      = LabelOutcome.invalidLabels
          (((["bug", "ghost-label"] : List String).filter
              (fun l => !issue1.labels.contains l)).filter
            (fun l => !repo0.labelCatalog.contains l)) repo0.labelCatalog ∧
    (((["bug", "ghost-label"] : List String).filter
        (fun l => !issue1.labels.contains l)).filter
        (fun l => !repo0.labelCatalog.contains l)).toFinset
      = ((["bug", "ghost-label"] : List String).toFinset \ issue1.labels.toFinset)
          \ repo0.labelCatalog.toFinset :=
  ⟨(C2_invalid_labels_atomic (some "token") repo0 "octocat/Hello-World" 1
      ["bug", "ghost-label"] issue1 rfl rfl (by decide)).1,
    (C2_invalid_labels_atomic (some "token") repo0 "octocat/Hello-World" 1
      ["bug", "ghost-label"] issue1 rfl rfl (by decide)).2.1 ["ghost-label"],
    (C2_invalid_labels_atomic (some "token") repo0 "octocat/Hello-World" 1
      ["bug", "ghost-label"] issue1 rfl rfl (by decide)).2.2.1,
    (C2_invalid_labels_atomic (some "token") repo0 "octocat/Hello-World" 1
      ["bug", "ghost-label"] issue1 rfl rfl (by decide)).2.2.2⟩

/-- Claim C1: for an existing issue, `AddLabelToIssue._run` leaves the
issue's label set a superset of its previous label set (labels are never
removed), and — when the operation can run (credential present) and every
requested label not already on the issue exists in the repository's label
catalog — the resulting label set is exactly the union of the existing
and the requested labels. -/
theorem C1_merge_labels_union (tok : Option String) (repo : Repo) (repository : String)
    (n : Nat) (labels : List String) (issue : Issue)
    (hfind : findIssue repo n = some issue) :
    issue.labels.toFinset
        ⊆ (issueLabels (addLabelRun tok repo repository n labels).2.1 n).toFinset ∧
    (tokenPresent tok = true →
      (∀ l ∈ labels, l ∉ issue.labels → l ∈ repo.labelCatalog) →
      (issueLabels (addLabelRun tok repo repository n labels).2.1 n).toFinset
        = issue.labels.toFinset ∪ labels.toFinset) := by
  have hlabrepo : issueLabels repo n = issue.labels := by
    unfold issueLabels
    rw [hfind]
    rfl
  cases htok : tokenPresent tok with
  | false =>
    have hrun : (addLabelRun tok repo repository n labels).2.1 = repo := by
      simp [addLabelRun, htok]
    rw [hrun, hlabrepo]
    exact ⟨Finset.Subset.refl _, fun ht => absurd ht (by simp [htok])⟩
  | true =>
    by_cases hex1 : ∃ x ∈ labels, x ∉ issue.labels
    · by_cases hex2 : ∃ x ∈ labels, x ∉ repo.labelCatalog ∧ x ∉ issue.labels
      · -- invalid-label branch: nothing changes, and the union hypothesis
        -- contradicts the invalid label
        have hrun : (addLabelRun tok repo repository n labels).2.1 = repo := by
          simp [addLabelRun, htok, hfind, hex1, hex2]
        rw [hrun, hlabrepo]
        refine ⟨Finset.Subset.refl _, ?_⟩
        intro _ hcat
        obtain ⟨x, hxL, hxC, hxE⟩ := hex2
        exact absurd (hcat x hxL hxE) hxC
      · -- add branch
        have hrun : (addLabelRun tok repo repository n labels).2.1
            = setIssueLabels repo n
                (issue.labels ++ labels.filter (fun l => !issue.labels.contains l)) := by
          simp [addLabelRun, htok, hfind, hex1, hex2]
        have hlab : issueLabels (addLabelRun tok repo repository n labels).2.1 n
            = issue.labels ++ labels.filter (fun l => !issue.labels.contains l) := by
          rw [hrun]
          unfold issueLabels
          rw [findIssue_setIssueLabels, hfind]
          rfl
        rw [hlab]
        constructor
        · intro a ha
          rw [List.mem_toFinset] at ha ⊢
          exact List.mem_append_left _ ha
        · intro _ _
          ext a
          simp only [List.mem_toFinset, List.mem_append, List.mem_filter, Finset.mem_union,
            Bool.not_eq_true', List.mem_toFinset]
          constructor
          · intro h
            rcases h with h | ⟨h1, _⟩
            · exact Or.inl h
            · exact Or.inr h1
          · intro h
            rcases h with h | h
            · exact Or.inl h
            · by_cases he : a ∈ issue.labels
              · exact Or.inl he
              · refine Or.inr ⟨h, ?_⟩
                simpa using he
    · -- no-op branch: every requested label is already present
      have hrun : (addLabelRun tok repo repository n labels).2.1 = repo := by
        simp [addLabelRun, htok, hfind, hex1]
      rw [hrun, hlabrepo]
      push_neg at hex1
      refine ⟨Finset.Subset.refl _, ?_⟩
      intro _ _
      have hsub : labels.toFinset ⊆ issue.labels.toFinset := by
        intro a ha
        rw [List.mem_toFinset] at ha ⊢
        exact hex1 a ha
      exact Finset.left_eq_union.mpr hsub

theorem C1_merge_labels_union_witness :
    issue1.labels.toFinset ⊆ (issueLabels
      (addLabelRun (some "token") repo0 "octocat/Hello-World" 1 ["feature"]).2.1 1).toFinset ∧
    (issueLabels
        (addLabelRun (some "token") repo0 "octocat/Hello-World" 1 ["feature"]).2.1 1).toFinset
      = issue1.labels.toFinset ∪ (["feature"] : List String).toFinset :=
  ⟨(C1_merge_labels_union (some "token") repo0 "octocat/Hello-World" 1 ["feature"] issue1
      rfl).1,
    (C1_merge_labels_union (some "token") repo0 "octocat/Hello-World" 1 ["feature"] issue1
      rfl).2 rfl (by decide)⟩

/-- Claim C8 as stated is false: when the requested assignee is rejected
by the remote (not an assignable user), the second identical call repeats
the rejection error rather than returning a success/no-op result (the
final assignee set does coincide, but the claimed no-op outcome of the
second call does not occur). -/
theorem C8_assignees_idempotent_counterexample :
    (assignIssueRun (some "token")
        (assignIssueRun (some "token") repo0 "octocat/Hello-World" 1 ["ghost"]).2.1
        "octocat/Hello-World" 1 ["ghost"]).1 = AssignOutcome.rejected ["ghost"] ∧
    assignIsOk (assignIssueRun (some "token")
        (assignIssueRun (some "token") repo0 "octocat/Hello-World" 1 ["ghost"]).2.1
        "octocat/Hello-World" 1 ["ghost"]).1 = false := by
  decide

/-- When every requested assignee is already on the found issue,
`AssignIssue._run` is a no-op returning the unchanged assignee set. -/
theorem assignRun_noop (tok : Option String) (repo : Repo) (repository : String) (n : Nat)
    (assignees : List String) (issue : Issue)
    (htok : tokenPresent tok = true)
    (hfind : findIssue repo n = some issue)
    (hsub : ∀ x ∈ assignees, x ∈ issue.assignees) :
    assignIssueRun tok repo repository n assignees
      = (.allAssigned issue.assignees n, repo, [.getRepo, .getIssue n]) := by
  have hex : ¬∃ x ∈ assignees, x ∉ issue.assignees := by
    rintro ⟨x, hx, hnx⟩
    exact hnx (hsub x hx)
  simp [assignIssueRun, htok, hfind, hex]

/-- Claim C8 (amended): running `AssignIssue._run` twice with the same
input set yields the same final assignee state as running it once, and
whenever the first call returns a success or no-op outcome, the second
call returns the no-op result carrying the unchanged assignee set left by
the first call. (When the first call fails — rejected batch, missing
credential, missing issue — the second call repeats that failure instead
of reporting a no-op, though the final state still equals that of a
single call.) -/
theorem C8_assignees_idempotent_amended (tok : Option String) (repo : Repo)
    (repository : String) (n : Nat) (assignees : List String) :
    (assignIssueRun tok (assignIssueRun tok repo repository n assignees).2.1 repository n
        assignees).2.1 = (assignIssueRun tok repo repository n assignees).2.1 ∧
    (assignIsOk (assignIssueRun tok repo repository n assignees).1 = true →
      (assignIssueRun tok (assignIssueRun tok repo repository n assignees).2.1 repository n
          assignees).1
        = AssignOutcome.allAssigned
            (issueAssignees (assignIssueRun tok repo repository n assignees).2.1 n) n) := by
  cases htok : tokenPresent tok with
  | false =>
    have h1 : assignIssueRun tok repo repository n assignees = (.credMissing, repo, []) := by
      simp [assignIssueRun, htok]
    rw [h1]
    simp [h1, assignIsOk]
  | true =>
    cases hfind : findIssue repo n with
    | none =>
      have h1 : assignIssueRun tok repo repository n assignees
          = (.notFound n repository, repo, [.getRepo, .getIssue n]) := by
        simp [assignIssueRun, htok, hfind]
      rw [h1]
      simp [h1, assignIsOk]
    | some issue =>
      by_cases hex : ∃ x ∈ assignees, x ∉ issue.assignees
      · by_cases hval : ∀ x ∈ assignees, x ∉ issue.assignees → x ∈ repo.assignableUsers
        · have h1 : assignIssueRun tok repo repository n assignees
              = (.assigned (assignees.filter (fun a => !decide (a ∈ issue.assignees)))
                  (issue.assignees
                    ++ assignees.filter (fun a => !decide (a ∈ issue.assignees))) n,
                 setIssueAssignees repo n
                   (issue.assignees
                     ++ assignees.filter (fun a => !decide (a ∈ issue.assignees))),
                 [.getRepo, .getIssue n,
                  .addAssignees
                    (assignees.filter (fun a => !decide (a ∈ issue.assignees)))]) := by
            simp [assignIssueRun, htok, hfind, hex]
            exact hval
          have hfind2 : findIssue (setIssueAssignees repo n
              (issue.assignees ++ assignees.filter (fun a => !decide (a ∈ issue.assignees)))) n
              = some { issue with assignees := issue.assignees
                  ++ assignees.filter (fun a => !decide (a ∈ issue.assignees)) } := by
            rw [findIssue_setIssueAssignees, hfind]
            rfl
          have hsub2 : ∀ x ∈ assignees, x ∈ issue.assignees
              ++ assignees.filter (fun a => !decide (a ∈ issue.assignees)) := by
            intro x hx
            by_cases hxe : x ∈ issue.assignees
            · exact List.mem_append_left _ hxe
            · refine List.mem_append_right _ ?_
              rw [List.mem_filter]
              exact ⟨hx, by simpa using hxe⟩
          have h2 : assignIssueRun tok (setIssueAssignees repo n
              (issue.assignees ++ assignees.filter (fun a => !decide (a ∈ issue.assignees))))
              repository n assignees
              = (.allAssigned (issue.assignees
                  ++ assignees.filter (fun a => !decide (a ∈ issue.assignees))) n,
                 setIssueAssignees repo n
                   (issue.assignees
                     ++ assignees.filter (fun a => !decide (a ∈ issue.assignees))),
                 [.getRepo, .getIssue n]) :=
            assignRun_noop tok _ repository n assignees _ htok hfind2 hsub2
          rw [h1]
          constructor
          · show (assignIssueRun tok (setIssueAssignees repo n
                (issue.assignees ++ assignees.filter (fun a => !decide (a ∈ issue.assignees))))
                repository n assignees).2.1 = _
            rw [h2]
          · intro _
            show (assignIssueRun tok (setIssueAssignees repo n
                (issue.assignees ++ assignees.filter (fun a => !decide (a ∈ issue.assignees))))
                repository n assignees).1 = _
            rw [h2]
            show _ = AssignOutcome.allAssigned (issueAssignees (setIssueAssignees repo n
                (issue.assignees
                  ++ assignees.filter (fun a => !decide (a ∈ issue.assignees)))) n) n
            unfold issueAssignees
            rw [hfind2]
            rfl
        · have h1 : assignIssueRun tok repo repository n assignees
              = (.rejected (assignees.filter (fun a => !decide (a ∈ issue.assignees))), repo,
                 [.getRepo, .getIssue n,
                  .addAssignees
                    (assignees.filter (fun a => !decide (a ∈ issue.assignees)))]) := by
            simp [assignIssueRun, htok, hfind, hex]
            push_neg at hval
            exact hval
          rw [h1]
          simp [h1, assignIsOk]
      · have h1 : assignIssueRun tok repo repository n assignees
            = (.allAssigned issue.assignees n, repo, [.getRepo, .getIssue n]) := by
          simp [assignIssueRun, htok, hfind, hex]
        rw [h1]
        simp [h1, assignIsOk, issueAssignees, hfind]

theorem C8_assignees_idempotent_amended_witness :
    (assignIssueRun (some "token")
        (assignIssueRun (some "token") repo0 "octocat/Hello-World" 1 ["bob"]).2.1
        "octocat/Hello-World" 1 ["bob"]).2.1
      = (assignIssueRun (some "token") repo0 "octocat/Hello-World" 1 ["bob"]).2.1 ∧
    (assignIssueRun (some "token")
        (assignIssueRun (some "token") repo0 "octocat/Hello-World" 1 ["bob"]).2.1
        "octocat/Hello-World" 1 ["bob"]).1
      = AssignOutcome.allAssigned
          (issueAssignees
            (assignIssueRun (some "token") repo0 "octocat/Hello-World" 1 ["bob"]).2.1 1) 1 :=
  ⟨(C8_assignees_idempotent_amended (some "token") repo0 "octocat/Hello-World" 1 ["bob"]).1,
    (C8_assignees_idempotent_amended (some "token") repo0 "octocat/Hello-World" 1
      ["bob"]).2 rfl⟩

/-- Claim C9 as stated is false: the transport-failure return point
renders as a string beginning with the marker GitHub API Error, which is
not prefixed by the plain marker, so not every failure outcome carries the
claimed prefix. -/
theorem C9_error_marker_counterexample :
    labelIsFailure (LabelOutcome.apiError "rate limited") = true ∧
    strStartsWith "Error:"
      (renderLabelOutcome (LabelOutcome.apiError "rate limited")) = false := by
  decide

/-- Claim C9 (amended): every failure outcome of every one of the four
operations renders to a string beginning with either the plain marker or
the GitHub API marker, and no success or no-op outcome begins with either,
so success versus failure is still determined by the prefix alone — but
not by the single plain marker the claim states, since transport failures
render with the GitHub API marker instead. -/
theorem C9_error_marker_amended :
    (∀ o : FetchOutcome, fetchIsFailure o = true →
      strStartsWith "Error" (renderFetchOutcome o) = true ∨
      strStartsWith "GitHub API Error:" (renderFetchOutcome o) = true) ∧
    (∀ o : FetchOutcome, fetchIsFailure o = false →
      strStartsWith "Error" (renderFetchOutcome o) = false ∧
      strStartsWith "GitHub API Error:" (renderFetchOutcome o) = false) ∧
    (∀ o : LabelOutcome, labelIsFailure o = true →
      strStartsWith "Error" (renderLabelOutcome o) = true ∨
      strStartsWith "GitHub API Error:" (renderLabelOutcome o) = true) ∧
    (∀ o : LabelOutcome, labelIsFailure o = false →
      strStartsWith "Error" (renderLabelOutcome o) = false ∧
      strStartsWith "GitHub API Error:" (renderLabelOutcome o) = false) ∧
    (∀ o : AssignOutcome, assignIsFailure o = true →
      strStartsWith "Error" (renderAssignOutcome o) = true ∨
      strStartsWith "GitHub API Error:" (renderAssignOutcome o) = true) ∧
    (∀ o : AssignOutcome, assignIsFailure o = false →
      strStartsWith "Error" (renderAssignOutcome o) = false ∧
      strStartsWith "GitHub API Error:" (renderAssignOutcome o) = false) ∧
    (∀ o : CommentOutcome, commentIsFailure o = true →
      strStartsWith "Error" (renderCommentOutcome o) = true ∨
      strStartsWith "GitHub API Error:" (renderCommentOutcome o) = true) ∧
    (∀ o : CommentOutcome, commentIsFailure o = false →
      strStartsWith "Error" (renderCommentOutcome o) = false ∧
      strStartsWith "GitHub API Error:" (renderCommentOutcome o) = false) := by
  refine ⟨?_, ?_, ?_, ?_, ?_, ?_, ?_, ?_⟩
  · intro o h
    cases o with
    | credMissing => exact Or.inl (by decide)
    | noIssues => simp [fetchIsFailure] at h
    | listing issues => simp [fetchIsFailure] at h
    | apiError m =>
      simp only [renderFetchOutcome]
      refine Or.inr ?_
      repeat apply strStartsWith_append
      decide
    | exnError m =>
      simp only [renderFetchOutcome]
      refine Or.inl ?_
      repeat apply strStartsWith_append
      decide
  · intro o h
    cases o with
    | credMissing => simp [fetchIsFailure] at h
    | apiError m => simp [fetchIsFailure] at h
    | exnError m => simp [fetchIsFailure] at h
    | noIssues => exact ⟨by decide, by decide⟩
    | listing issues =>
      simp only [renderFetchOutcome]
      constructor
      · exact strStartsWith_false_of_head _ _ 'E' 'F' "rror".data _ rfl rfl (by decide)
      · exact strStartsWith_false_of_head _ _ 'G' 'F' "itHub API Error:".data _ rfl rfl
          (by decide)
  · intro o h
    cases o with
    | credMissing => exact Or.inl (by decide)
    | badLabels422 => exact Or.inl (by decide)
    | added toAdd updated n => simp [labelIsFailure] at h
    | allPresent existing n => simp [labelIsFailure] at h
    | invalidLabels invalid catalog =>
      simp only [renderLabelOutcome]
      refine Or.inl ?_
      repeat apply strStartsWith_append
      decide
    | notFound n repository =>
      simp only [renderLabelOutcome]
      refine Or.inl ?_
      repeat apply strStartsWith_append
      decide
    | apiError m =>
      simp only [renderLabelOutcome]
      refine Or.inr ?_
      repeat apply strStartsWith_append
      decide
    | exnError m =>
      simp only [renderLabelOutcome]
      refine Or.inl ?_
      repeat apply strStartsWith_append
      decide
  · intro o h
    cases o with
    | credMissing => simp [labelIsFailure] at h
    | invalidLabels invalid catalog => simp [labelIsFailure] at h
    | notFound n repository => simp [labelIsFailure] at h
    | badLabels422 => simp [labelIsFailure] at h
    | apiError m => simp [labelIsFailure] at h
    | exnError m => simp [labelIsFailure] at h
    | added toAdd updated n =>
      simp only [renderLabelOutcome]
      constructor
      · exact strStartsWith_false_of_head _ _ 'E' '✅' "rror".data _ rfl rfl (by decide)
      · exact strStartsWith_false_of_head _ _ 'G' '✅' "itHub API Error:".data _ rfl rfl
          (by decide)
    | allPresent existing n =>
      simp only [renderLabelOutcome]
      constructor
      · exact strStartsWith_false_of_head _ _ 'E' 'ℹ' "rror".data _ rfl rfl (by decide)
      · exact strStartsWith_false_of_head _ _ 'G' 'ℹ' "itHub API Error:".data _ rfl rfl
          (by decide)
  · intro o h
    cases o with
    | credMissing => exact Or.inl (by decide)
    | assigned toAdd updated n => simp [assignIsFailure] at h
    | allAssigned existing n => simp [assignIsFailure] at h
    | rejected toAdd =>
      simp only [renderAssignOutcome]
      refine Or.inl ?_
      repeat apply strStartsWith_append
      decide
    | notFound n repository =>
      simp only [renderAssignOutcome]
      refine Or.inl ?_
      repeat apply strStartsWith_append
      decide
    | apiError m =>
      simp only [renderAssignOutcome]
      refine Or.inr ?_
      repeat apply strStartsWith_append
      decide
    | exnError m =>
      simp only [renderAssignOutcome]
      refine Or.inl ?_
      repeat apply strStartsWith_append
      decide
  · intro o h
    cases o with
    | credMissing => simp [assignIsFailure] at h
    | rejected toAdd => simp [assignIsFailure] at h
    | notFound n repository => simp [assignIsFailure] at h
    | apiError m => simp [assignIsFailure] at h
    | exnError m => simp [assignIsFailure] at h
    | assigned toAdd updated n =>
      simp only [renderAssignOutcome]
      constructor
      · exact strStartsWith_false_of_head _ _ 'E' '✅' "rror".data _ rfl rfl (by decide)
      · exact strStartsWith_false_of_head _ _ 'G' '✅' "itHub API Error:".data _ rfl rfl
          (by decide)
    | allAssigned existing n =>
      simp only [renderAssignOutcome]
      constructor
      · exact strStartsWith_false_of_head _ _ 'E' 'ℹ' "rror".data _ rfl rfl (by decide)
      · exact strStartsWith_false_of_head _ _ 'G' 'ℹ' "itHub API Error:".data _ rfl rfl
          (by decide)
  · intro o h
    cases o with
    | credMissing => exact Or.inl (by decide)
    | emptyComment => exact Or.inl (by decide)
    | permissionDenied => exact Or.inl (by decide)
    | commented n preview => simp [commentIsFailure] at h
    | notFound n repository =>
      simp only [renderCommentOutcome]
      refine Or.inl ?_
      repeat apply strStartsWith_append
      decide
    | apiError m =>
      simp only [renderCommentOutcome]
      refine Or.inr ?_
      repeat apply strStartsWith_append
      decide
    | exnError m =>
      simp only [renderCommentOutcome]
      refine Or.inl ?_
      repeat apply strStartsWith_append
      decide
  · intro o h
    cases o with
    | credMissing => simp [commentIsFailure] at h
    | emptyComment => simp [commentIsFailure] at h
    | notFound n repository => simp [commentIsFailure] at h
    | permissionDenied => simp [commentIsFailure] at h
    | apiError m => simp [commentIsFailure] at h
    | exnError m => simp [commentIsFailure] at h
    | commented n preview =>
      simp only [renderCommentOutcome]
      constructor
      · exact strStartsWith_false_of_head _ _ 'E' '✅' "rror".data _ rfl rfl (by decide)
      · exact strStartsWith_false_of_head _ _ 'G' '✅' "itHub API Error:".data _ rfl rfl
          (by decide)

theorem C9_error_marker_amended_witness :
    (strStartsWith "Error" (renderLabelOutcome (LabelOutcome.apiError "boom")) = true ∨
      strStartsWith "GitHub API Error:"
        (renderLabelOutcome (LabelOutcome.apiError "boom")) = true) ∧
    (strStartsWith "Error" (renderLabelOutcome (LabelOutcome.added ["bug"] ["bug"] 1)) = false ∧
      strStartsWith "GitHub API Error:"
        (renderLabelOutcome (LabelOutcome.added ["bug"] ["bug"] 1)) = false) :=
  ⟨C9_error_marker_amended.2.2.1 (LabelOutcome.apiError "boom") rfl,
    C9_error_marker_amended.2.2.2.1 (LabelOutcome.added ["bug"] ["bug"] 1) rfl⟩
